import Mathlib

/-
  Verification development for the DMME mascot engine core
  (rendering driver abstraction, frame lifecycle orchestration,
  transparent-window compositing and alpha hit testing).

  The C++ sources are shallowly embedded: 8-bit channels are `Nat`
  values in [0, 255], C `int` fields are `Int`, `float` arithmetic on
  clear colors is modelled over `ℚ` (the operations involved — clamp,
  multiply by 255, add 0.5, truncate — are exact on the small values
  used, so the rational model agrees with IEEE single precision on
  every representable input considered here), fallible operations
  return `Bool × State` or `Option`, and `void` mutators are
  `State → State`.  Logging calls are side-effect free for the
  properties below and are omitted.
-/

set_option autoImplicit false

namespace DMME

/-! ## Pixel data (TransparentWindow.cpp, ClickThrough.cpp) -/

/-- A straight-alpha RGBA pixel as produced by the renderer.
Channels are byte values in [0, 255]. -/
structure RGBA where
  r : Nat
  g : Nat
  b : Nat
  a : Nat
  deriving Repr, DecidableEq

/-- A premultiplied BGRA pixel as consumed by UpdateLayeredWindow. -/
structure BGRA where
  b : Nat
  g : Nat
  r : Nat
  a : Nat
  deriving Repr, DecidableEq

/-- Per-pixel body of `TransparentWindow::ConvertRGBAToBGRAPremul`
(TransparentWindow.cpp lines 645-670): fully opaque pixels are
swizzled unchanged, fully transparent pixels are zeroed, and the
remaining alphas premultiply each channel as `(channel * alpha + 127) / 255`
in integer arithmetic. -/
def ConvertRGBAToBGRAPremulPixel (p : RGBA) : BGRA :=
  if p.a = 255 then
    { b := p.b, g := p.g, r := p.r, a := 255 }
  else if p.a = 0 then
    { b := 0, g := 0, r := 0, a := 0 }
  else
    { b := (p.b * p.a + 127) / 255
      g := (p.g * p.a + 127) / 255
      r := (p.r * p.a + 127) / 255
      a := p.a }

/-- The full conversion loop of `TransparentWindow::ConvertRGBAToBGRAPremul`:
every pixel of the source buffer is converted independently. -/
def ConvertRGBAToBGRAPremul (src : List RGBA) : List BGRA :=
  src.map ConvertRGBAToBGRAPremulPixel

/-! ## ClickThrough (ClickThrough.cpp) -/

/-- State of the `ClickThrough` hit tester: a non-owning reference to a
BGRA byte buffer (modelled as `Option (List Nat)`, `none` standing for
the null pointer), its dimensions, and the alpha threshold.  Field
defaults mirror the C++ constructor (`ClickThrough.cpp` lines 12-18). -/
structure ClickThrough where
  buffer : Option (List Nat) := none
  width : Int := 0
  height : Int := 0
  threshold : Nat := 10
  deriving Repr, DecidableEq

/-- `ClickThrough::GetAlphaAt` (ClickThrough.cpp lines 73-88): returns 0
when no buffer is set or the coordinate is out of bounds, otherwise the
byte at offset `(y*width + x)*4 + 3` of the BGRA buffer. -/
def ClickThrough.GetAlphaAt (c : ClickThrough) (x y : Int) : Nat :=
  match c.buffer with
  | none => 0
  | some buf =>
      if x < 0 ∨ y < 0 ∨ c.width ≤ x ∨ c.height ≤ y then 0
      else buf.getD ((y * c.width + x) * 4 + 3).toNat 0

/-- `ClickThrough::IsTransparentAt` (ClickThrough.cpp lines 65-67). -/
def ClickThrough.IsTransparentAt (c : ClickThrough) (x y : Int) : Bool :=
  decide (c.GetAlphaAt x y ≤ c.threshold)

/-- `ClickThrough::IsOpaqueAt` (ClickThrough.cpp lines 69-71). -/
def ClickThrough.IsOpaqueAt (c : ClickThrough) (x y : Int) : Bool :=
  decide (c.threshold < c.GetAlphaAt x y)

/-! ## Renderer data model (RenderTypes.h) -/

/-- `GraphicsAPI` (RenderTypes.h lines 16-22). -/
inductive GraphicsAPI where
  | NoAPI
  | DX11
  | DX12
  | Vulkan
  | OpenGL
  deriving Repr, DecidableEq, BEq

/-- `TextureFormat` (RenderTypes.h lines 51-56). -/
inductive TextureFormat where
  | RGBA8_UNORM
  | RGBA16_FLOAT
  | DEPTH24_STENCIL8
  | DEPTH32_FLOAT
  deriving Repr, DecidableEq

/-- `RenderTargetDesc` (RenderTypes.h lines 58-64). -/
structure RenderTargetDesc where
  width : Int := 0
  height : Int := 0
  format : TextureFormat := .RGBA8_UNORM
  hasDepth : Bool := true
  samples : Int := 1
  deriving Repr, DecidableEq

/-- `ClearColor` (RenderTypes.h lines 70-75); the `float` channels are
modelled as rationals. -/
structure ClearColor where
  r : ℚ := 0
  g : ℚ := 0
  b : ℚ := 0
  a : ℚ := 0
  deriving Repr, DecidableEq

/-- `Viewport` (RenderTypes.h lines 81-88). -/
structure Viewport where
  x : ℚ := 0
  y : ℚ := 0
  width : ℚ := 0
  height : ℚ := 0
  minDepth : ℚ := 0
  maxDepth : ℚ := 1
  deriving Repr, DecidableEq

/-- `FrameStats` (RenderTypes.h lines 94-101). -/
structure FrameStats where
  frameNumber : Nat := 0
  frameTimeMs : ℚ := 0
  gpuTimeMs : ℚ := 0
  drawCalls : Int := 0
  trianglesRendered : Int := 0
  vramUsedBytes : Nat := 0
  deriving Repr, DecidableEq

/-- `std::vector<uint8_t>::resize(n, 0)`: keeps the first `min n length`
existing bytes and zero-fills up to `n`. -/
def listResize (l : List Nat) (n : Nat) : List Nat :=
  l.take n ++ List.replicate (n - l.length) 0

/-- `PixelReadback` (RenderTypes.h lines 123-142). -/
structure PixelReadback where
  data : List Nat := []
  width : Int := 0
  height : Int := 0
  deriving Repr, DecidableEq

/-- `PixelReadback::IsValid` (RenderTypes.h lines 128-131). -/
def PixelReadback.IsValid (p : PixelReadback) : Bool :=
  !p.data.isEmpty && decide (0 < p.width) && decide (0 < p.height) &&
    p.data.length == p.width.toNat * p.height.toNat * 4

/-- `PixelReadback::Allocate` (RenderTypes.h lines 133-137): `resize`
semantics (existing prefix kept, rest zero-filled).  The C++ cast
`static_cast<size_t>(w) * h * 4` is modelled with `Int.toNat`; all call
sites guard `w, h > 0`. -/
def PixelReadback.Allocate (p : PixelReadback) (w h : Int) : PixelReadback :=
  { data := listResize p.data (w.toNat * h.toNat * 4), width := w, height := h }

/-- `RenderConfig` (RenderTypes.h lines 148-155). -/
structure RenderConfig where
  preferredAPI : GraphicsAPI := .DX11
  enableDebugLayer : Bool := false
  enableVSync : Bool := false
  targetWidth : Int := 512
  targetHeight : Int := 512
  clearColor : ClearColor := {}
  deriving Repr, DecidableEq

/-- Quantization performed by the software driver's `Clear`
(OpenGLDriver.cpp lines 197-200): clamp to [0,1], scale by 255, add 0.5
and truncate to an unsigned byte.  On the clamped, non-negative range
truncation coincides with the floor. -/
def quantizeChannel (x : ℚ) : Nat :=
  (Int.floor (max 0 (min x 1) * 255 + 1 / 2)).toNat

/-! ## Software fallback driver (OpenGLDriver.cpp) -/

/-- State of the software-fallback `OpenGLDriver` (OpenGLDriver.h
lines 48-56); field defaults mirror the member initializers. -/
structure OpenGLDriver where
  initialized : Bool := false
  targetWidth : Int := 0
  targetHeight : Int := 0
  clearColor : ClearColor := {}
  internalBuffer : PixelReadback := {}
  frameStats : FrameStats := {}
  frameCounter : Nat := 0
  deriving Repr, DecidableEq

/-- `OpenGLDriver::IsSupported` (lines 49-53): the software fallback is
always supported. -/
def OpenGLDriver.IsSupported (_s : OpenGLDriver) : Bool :=
  true

/-- `OpenGLDriver::Initialize` (lines 59-76): success no-op when already
initialized, otherwise records the clear color and resets frame state. -/
def OpenGLDriver.InitDriver (config : RenderConfig) (s : OpenGLDriver) :
    Bool × OpenGLDriver :=
  if s.initialized then (true, s)
  else
    (true, { s with clearColor := config.clearColor, initialized := true,
                    frameCounter := 0, frameStats := {} })

/-- `OpenGLDriver::Shutdown` (lines 78-92). -/
def OpenGLDriver.Shutdown (s : OpenGLDriver) : OpenGLDriver :=
  if !s.initialized then s
  else
    { s with internalBuffer := {}, targetWidth := 0, targetHeight := 0,
             initialized := false }

/-- `OpenGLDriver::CreateTarget` (lines 131-151). -/
def OpenGLDriver.CreateTarget (desc : RenderTargetDesc) (s : OpenGLDriver) :
    Bool × OpenGLDriver :=
  if !s.initialized then (false, s)
  else if desc.width ≤ 0 ∨ desc.height ≤ 0 then (false, s)
  else
    (true, { s with targetWidth := desc.width, targetHeight := desc.height,
                    internalBuffer := s.internalBuffer.Allocate desc.width desc.height })

/-- `OpenGLDriver::ResizeTarget` (lines 153-166). -/
def OpenGLDriver.ResizeTarget (width height : Int) (s : OpenGLDriver) :
    Bool × OpenGLDriver :=
  if !s.initialized then (false, s)
  else if width ≤ 0 ∨ height ≤ 0 then (false, s)
  else if width = s.targetWidth ∧ height = s.targetHeight then (true, s)
  else
    (true, { s with targetWidth := width, targetHeight := height,
                    internalBuffer := s.internalBuffer.Allocate width height })

/-- `OpenGLDriver::DestroyTarget` (lines 168-174): no initialization
check; clears the internal buffer and the target dimensions. -/
def OpenGLDriver.DestroyTarget (s : OpenGLDriver) : OpenGLDriver :=
  { s with internalBuffer := {}, targetWidth := 0, targetHeight := 0 }

/-- `OpenGLDriver::BeginFrame` (lines 180-189): fails without
initialization or a positive-sized target; resets per-frame counters. -/
def OpenGLDriver.BeginFrame (s : OpenGLDriver) : Bool × OpenGLDriver :=
  if !s.initialized ∨ s.targetWidth ≤ 0 ∨ s.targetHeight ≤ 0 then (false, s)
  else
    (true, { s with frameStats := { s.frameStats with drawCalls := 0, trianglesRendered := 0 } })

/-- `OpenGLDriver::Clear` (lines 191-211): stores the clear color, then —
only when the internal buffer is valid — fills all
`targetWidth * targetHeight` pixels with the quantized color.  In every
reachable valid state the buffer size equals `targetWidth*targetHeight*4`,
so the loop overwrites the buffer exactly; the model keeps any surplus
suffix unchanged, as the loop would. -/
def OpenGLDriver.Clear (color : ClearColor) (s : OpenGLDriver) : OpenGLDriver :=
  let s := { s with clearColor := color }
  if !s.internalBuffer.IsValid then s
  else
    let pat := (List.replicate (s.targetWidth.toNat * s.targetHeight.toNat)
      [quantizeChannel color.r, quantizeChannel color.g,
       quantizeChannel color.b, quantizeChannel color.a]).flatten
    { s with internalBuffer :=
        { s.internalBuffer with data := pat ++ s.internalBuffer.data.drop pat.length } }

/-- `OpenGLDriver::SetViewport` (lines 213-215): no-op. -/
def OpenGLDriver.SetViewport (_vp : Viewport) (s : OpenGLDriver) : OpenGLDriver :=
  s

/-- `OpenGLDriver::EndFrame` (lines 217-225): succeeds whenever the
driver is initialized — the presence of a render target is not checked —
and increments the frame counter. -/
def OpenGLDriver.EndFrame (s : OpenGLDriver) : Bool × OpenGLDriver :=
  if !s.initialized then (false, s)
  else
    (true, { s with frameCounter := s.frameCounter + 1,
                    frameStats := { s.frameStats with
                                      frameNumber := s.frameCounter + 1,
                                      gpuTimeMs := 0 } })

/-- `OpenGLDriver::ReadbackPixels` (lines 231-242): fails without a valid
internal buffer; otherwise resizes the output to the target size and
copies the internal bytes over it (`memcpy` of `internalBuffer.data.size()`
bytes; in every reachable valid state that size equals the freshly
allocated output size). -/
def OpenGLDriver.ReadbackPixels (s : OpenGLDriver) (output : PixelReadback) :
    Option PixelReadback :=
  if !s.internalBuffer.IsValid then none
  else
    let out := output.Allocate s.targetWidth s.targetHeight
    some { out with data := s.internalBuffer.data ++ out.data.drop s.internalBuffer.data.length }

/-- `OpenGLDriver::GetFrameStats` (lines 248-250). -/
def OpenGLDriver.GetFrameStats (s : OpenGLDriver) : FrameStats :=
  s.frameStats

/-! ## Hardware driver (DX11Driver.cpp)

The Direct3D calls themselves are outside the program; their success or
failure and the timing-query results are supplied by environment records,
while the driver's own control flow and bookkeeping are embedded
faithfully.  COM object handles are modelled as presence booleans. -/

/-- State of `DX11Driver` (DX11Driver.h members); all handles default to
absent, mirroring the member initializers. -/
structure DX11Driver where
  initialized : Bool := false
  hasFactory : Bool := false
  hasAdapter : Bool := false
  hasDevice : Bool := false
  hasContext : Bool := false
  debugEnabled : Bool := false
  rtv : Bool := false
  renderTexture : Bool := false
  dsv : Bool := false
  depthTexture : Bool := false
  stagingTexture : Bool := false
  disjointQuery : Bool := false
  timestampBegin : Bool := false
  timestampEnd : Bool := false
  targetWidth : Int := 0
  targetHeight : Int := 0
  sampleCount : Int := 1
  frameCounter : Nat := 0
  frameStats : FrameStats := {}
  deriving Repr, DecidableEq

/-- Environment for `DX11Driver::Initialize`: outcomes of the D3D11/DXGI
calls it makes. -/
structure DX11InitEnv where
  factoryOk : Bool := true
  adapterOk : Bool := true
  deviceDebugOk : Bool := true
  deviceOk : Bool := true
  enumOk : Bool := true
  deriving Repr, DecidableEq

/-- Environment for `DX11Driver::EndFrame`: resolved timing-query data. -/
structure DX11TimingEnv where
  disjoint : Bool := false
  tsBegin : Nat := 0
  tsEnd : Nat := 0
  frequency : ℚ := 1
  deriving Repr, DecidableEq

/-- `DX11Driver::DestroyTarget` (DX11Driver.cpp lines 271-282): unbinds
and releases all target resources. -/
def DX11Driver.DestroyTarget (s : DX11Driver) : DX11Driver :=
  { s with rtv := false, renderTexture := false, dsv := false,
           depthTexture := false, stagingTexture := false,
           targetWidth := 0, targetHeight := 0 }

/-- `DX11Driver::Shutdown` (lines 152-184): no-op when not initialized,
otherwise destroys the target, releases queries, context, adapter,
factory and device, and clears the initialized flag. -/
def DX11Driver.Shutdown (s : DX11Driver) : DX11Driver :=
  if !s.initialized then s
  else
    let s := s.DestroyTarget
    { s with disjointQuery := false, timestampBegin := false, timestampEnd := false,
             hasContext := false, hasAdapter := false, hasFactory := false,
             hasDevice := false, initialized := false }

/-- `DX11Driver::CreateDevice` (lines 453-524): factory, adapter, then
device creation, retried once without the debug layer when the debug
request fails. -/
def DX11Driver.CreateDevice (env : DX11InitEnv) (enableDebug : Bool) (s : DX11Driver) :
    Bool × DX11Driver :=
  if !env.factoryOk then (false, s)
  else
    let s := { s with hasFactory := true }
    if !env.adapterOk then (false, s)
    else
      let s := { s with hasAdapter := true }
      if (if enableDebug then env.deviceDebugOk else env.deviceOk) then
        (true, { s with hasDevice := true, hasContext := true })
      else if enableDebug && env.deviceOk then
        (true, { s with hasDevice := true, hasContext := true, debugEnabled := false })
      else (false, s)

/-- `DX11Driver::Initialize` (lines 108-146): success no-op when already
initialized; otherwise device creation, adapter enumeration (whose
failure calls `Shutdown`, a no-op here since the initialized flag is not
yet set), then the capability snapshot and frame-state reset. -/
def DX11Driver.InitDriver (env : DX11InitEnv) (config : RenderConfig) (s : DX11Driver) :
    Bool × DX11Driver :=
  if s.initialized then (true, s)
  else
    let s := { s with debugEnabled := config.enableDebugLayer }
    match DX11Driver.CreateDevice env config.enableDebugLayer s with
    | (false, s) => (false, s)
    | (true, s) =>
        if !env.enumOk then (false, s.Shutdown)
        else (true, { s with initialized := true, frameCounter := 0, frameStats := {} })

/-- `DX11Driver::EndFrame` (lines 335-373): fails when not initialized or
no render-target view is bound; otherwise ends the timing queries, reads
the disjoint data (spin-wait), stores the GPU time when the interval was
not disjoint (64-bit wrap-around subtraction of the timestamps), and
increments the frame counter. -/
def DX11Driver.EndFrame (env : DX11TimingEnv) (s : DX11Driver) : Bool × DX11Driver :=
  if !s.initialized ∨ !s.rtv then (false, s)
  else
    let s :=
      if s.disjointQuery && s.timestampBegin && s.timestampEnd && !env.disjoint then
        { s with frameStats := { s.frameStats with
            gpuTimeMs :=
              (((env.tsEnd + 2 ^ 64 - env.tsBegin) % 2 ^ 64 : Nat) : ℚ)
                / env.frequency * 1000 } }
      else s
    (true, { s with frameCounter := s.frameCounter + 1,
                    frameStats := { s.frameStats with frameNumber := s.frameCounter + 1 } })

/-! ## Render surface (GPUSurface.cpp)

`GPUSurface` drives one driver's target lifecycle through the virtual
`IGraphicsDriver` interface; the virtual calls appear as function
parameters over an abstract driver-state type `D`.  The surface's
non-owning `m_driver` pointer is modelled by the `hasDriver` flag
together with the driver value that the caller (the pipeline) threads
through; in every pipeline-reachable state both name the same driver
instance. -/

/-- `GPUSurface` state (GPUSurface.h members). -/
structure GPUSurface where
  created : Bool := false
  hasDriver : Bool := false
  width : Int := 0
  height : Int := 0
  format : TextureFormat := .RGBA8_UNORM
  samples : Int := 1
  hasDepth : Bool := true
  readback : PixelReadback := {}
  deriving Repr, DecidableEq

/-- `GPUSurface::Destroy` (GPUSurface.cpp lines 108-125): idempotent;
releases the driver's target when a driver is attached and initialized,
then frees the readback buffer and clears all state. -/
def GPUSurface.Destroy {D : Type} (isInit : D → Bool) (destroyT : D → D)
    (surf : GPUSurface) (d : Option D) : GPUSurface × Option D :=
  if !surf.created then (surf, d)
  else
    let d := match d with
      | some dd => if surf.hasDriver && isInit dd then some (destroyT dd) else some dd
      | none => none
    ({ surf with created := false, hasDriver := false, width := 0, height := 0,
                 readback := {} }, d)

/-- `GPUSurface::Create` (lines 26-69): rejects a null or uninitialized
driver and non-positive dimensions; destroys prior state; records the
descriptor, delegates to the driver's `CreateTarget` (clearing its own
driver reference on failure), and pre-allocates the readback buffer. -/
def GPUSurface.Create {D : Type} (isInit : D → Bool)
    (createT : RenderTargetDesc → D → Bool × D) (destroyT : D → D)
    (surf : GPUSurface) (d : Option D) (desc : RenderTargetDesc) :
    Bool × GPUSurface × Option D :=
  match d with
  | none => (false, surf, none)
  | some dd =>
      if !isInit dd then (false, surf, some dd)
      else if desc.width ≤ 0 ∨ desc.height ≤ 0 then (false, surf, some dd)
      else
        let p := if surf.created then GPUSurface.Destroy isInit destroyT surf (some dd)
                 else (surf, some dd)
        let surf := p.1
        let dd := p.2.getD dd
        let surf := { surf with hasDriver := true, width := desc.width, height := desc.height,
                                format := desc.format, samples := desc.samples,
                                hasDepth := desc.hasDepth }
        match createT desc dd with
        | (false, dd) => (false, { surf with hasDriver := false }, some dd)
        | (true, dd) =>
            (true, { surf with readback := surf.readback.Allocate desc.width desc.height,
                               created := true }, some dd)

/-- `GPUSurface::Resize` (lines 75-102): fails when not created or driver
missing, or on non-positive dimensions; returns success without touching
anything when the dimensions are unchanged; otherwise delegates to the
driver and re-allocates the readback buffer. -/
def GPUSurface.Resize {D : Type} (resizeT : Int → Int → D → Bool × D)
    (surf : GPUSurface) (d : Option D) (w h : Int) : Bool × GPUSurface × Option D :=
  if !surf.created ∨ !surf.hasDriver then (false, surf, d)
  else if w ≤ 0 ∨ h ≤ 0 then (false, surf, d)
  else if w = surf.width ∧ h = surf.height then (true, surf, d)
  else
    match d with
    | none => (false, surf, none)
    | some dd =>
        match resizeT w h dd with
        | (false, dd) => (false, surf, some dd)
        | (true, dd) =>
            (true, { surf with width := w, height := h,
                               readback := surf.readback.Allocate w h }, some dd)

/-- `GPUSurface::ReadPixels` (lines 131-143): fails when not created or
driver missing; otherwise delegates to the driver's `ReadbackPixels` on
the internal readback buffer. -/
def GPUSurface.ReadPixels {D : Type} (readbackF : D → PixelReadback → Option PixelReadback)
    (surf : GPUSurface) (d : Option D) : Option PixelReadback × GPUSurface :=
  if !surf.created ∨ !surf.hasDriver then (none, surf)
  else
    match d with
    | none => (none, surf)
    | some dd =>
        match readbackF dd surf.readback with
        | none => (none, surf)
        | some rb => (some rb, { surf with readback := rb })

/-! ## Driver registry and selection (RenderPipeline.cpp) -/

/-- A `DriverEntry` of the registry (api, factory, priority); the factory
is modelled by the selection environment below. -/
structure DriverEntry where
  api : GraphicsAPI
  priority : Nat
  deriving Repr, DecidableEq

/-- `RenderPipeline::RegisterDrivers` (RenderPipeline.cpp lines 33-59):
DX11 at priority 10, the OpenGL fallback at priority 100, then sorted
ascending by priority. -/
def driverRegistry : List DriverEntry :=
  List.insertionSort (fun a b => a.priority ≤ b.priority)
    [{ api := .DX11, priority := 10 }, { api := .OpenGL, priority := 100 }]

/-- Outcomes of `IsSupported` and `Initialize` for an instantiated driver
of each API — the machine-dependent part of selection. -/
structure SelectEnv where
  supported : GraphicsAPI → Bool
  initOk : GraphicsAPI → Bool

/-- The preferred-API lookup loop of `RenderPipeline::SelectAndInitDriver`
(lines 125-146): first registry entry with the preferred API, if any. -/
def findPreferredEntry (pref : GraphicsAPI) : List DriverEntry → Option DriverEntry
  | [] => none
  | e :: rest => if e.api = pref then some e else findPreferredEntry pref rest

/-- The fallback loop of `RenderPipeline::SelectAndInitDriver`
(lines 149-172): walk the priority-sorted registry, skip the preferred
API, skip unsupported entries, stop at the first whose `Initialize`
succeeds.  Returns the winning API (if any) together with the list of
APIs that were instantiated, in order. -/
def selectFallbackLoop (env : SelectEnv) (pref : GraphicsAPI) :
    List DriverEntry → Option GraphicsAPI × List GraphicsAPI
  | [] => (none, [])
  | e :: rest =>
      if e.api = pref then selectFallbackLoop env pref rest
      else if !env.supported e.api then
        let r := selectFallbackLoop env pref rest
        (r.1, e.api :: r.2)
      else if env.initOk e.api then (some e.api, [e.api])
      else
        let r := selectFallbackLoop env pref rest
        (r.1, e.api :: r.2)

/-- `RenderPipeline::SelectAndInitDriver` (lines 118-175): try the
preferred API first (when specified and present in the registry:
`IsSupported`, then `Initialize`; success stops the search), then fall
through the full registry skipping the preferred entry.  The source's
`GraphicsAPI::None` is `NoAPI` here.  Result as in `selectFallbackLoop`. -/
def SelectAndInitDriver (env : SelectEnv) (pref : GraphicsAPI)
    (registry : List DriverEntry) : Option GraphicsAPI × List GraphicsAPI :=
  match (if pref ≠ GraphicsAPI.NoAPI then findPreferredEntry pref registry else none) with
  | some e =>
      if env.supported e.api then
        if env.initOk e.api then (some e.api, [e.api])
        else
          let r := selectFallbackLoop env pref registry
          (r.1, e.api :: r.2)
      else
        let r := selectFallbackLoop env pref registry
        (r.1, e.api :: r.2)
  | none => selectFallbackLoop env pref registry

/-! ## Render pipeline (RenderPipeline.cpp)

The pipeline owns one driver behind the virtual interface; as for
`GPUSurface`, the virtual calls are function parameters over an abstract
driver-state type `D`.  CPU timestamps (`std::chrono` reads) enter as
rational-valued parameters. -/

/-- `RenderPipeline` state (RenderPipeline.h members). -/
structure RenderPipeline (D : Type) where
  initialized : Bool := false
  frameActive : Bool := false
  driver : Option D := none
  surface : GPUSurface := {}
  config : RenderConfig := {}
  lastStats : FrameStats := {}
  cpuFrameTimeMs : ℚ := 0
  frameStart : ℚ := 0

/-- `RenderPipeline::Initialize` (lines 65-112): success no-op when
already initialized; otherwise stores the config, requires a selected
driver, and creates the primary surface (target size from the config,
RGBA8, depth on, 1 sample).  On surface-creation failure the driver is
shut down and released. -/
def pipelineInit {D : Type} (selected : Option D) (isInit : D → Bool)
    (createT : RenderTargetDesc → D → Bool × D) (destroyT : D → D) (shutdownF : D → D)
    (config : RenderConfig) (s : RenderPipeline D) : Bool × RenderPipeline D :=
  if s.initialized then (true, s)
  else
    let s := { s with config := config }
    match selected with
    | none => (false, s)
    | some d =>
        let desc : RenderTargetDesc :=
          { width := config.targetWidth, height := config.targetHeight,
            format := .RGBA8_UNORM, hasDepth := true, samples := 1 }
        match GPUSurface.Create isInit createT destroyT s.surface (some d) desc with
        | (false, surf, dOpt) =>
            let _shut := dOpt.map shutdownF
            (false, { s with surface := surf, driver := none })
        | (true, surf, dOpt) =>
            (true, { s with surface := surf, driver := dOpt,
                            initialized := true, frameActive := false })

/-- `RenderPipeline::Shutdown` (lines 181-200): no-op when not
initialized; forces the frame-active flag off, destroys the surface,
shuts down and releases the driver. -/
def pipelineShutdown {D : Type} (isInit : D → Bool) (destroyT : D → D) (shutdownF : D → D)
    (s : RenderPipeline D) : RenderPipeline D :=
  if !s.initialized then s
  else
    let s := { s with frameActive := false }
    let p := GPUSurface.Destroy isInit destroyT s.surface s.driver
    let _shut := p.2.map shutdownF
    { s with surface := p.1, driver := none, initialized := false }

/-- `RenderPipeline::BeginFrame` (lines 210-242): fails when not
initialized, no driver, or a frame is already active; records the CPU
timestamp, delegates to the driver's `BeginFrame`, clears with the
configured color, sets the full-surface viewport and marks the frame
active. -/
def pipelineBeginFrame {D : Type} (beginF : D → Bool × D) (clearF : ClearColor → D → D)
    (viewportF : Viewport → D → D) (now : ℚ) (s : RenderPipeline D) :
    Bool × RenderPipeline D :=
  if !s.initialized then (false, s)
  else
    match s.driver with
    | none => (false, s)
    | some d =>
        if s.frameActive then (false, s)
        else
          let s := { s with frameStart := now }
          match beginF d with
          | (false, d) => (false, { s with driver := some d })
          | (true, d) =>
              let d := clearF s.config.clearColor d
              let vp : Viewport := { x := 0, y := 0, width := (s.surface.width : ℚ),
                                     height := (s.surface.height : ℚ),
                                     minDepth := 0, maxDepth := 1 }
              let d := viewportF vp d
              (true, { s with driver := some d, frameActive := true })

/-- `RenderPipeline::EndFrame` (lines 244-270): fails when not
initialized, no driver, or no frame is active; otherwise delegates to the
driver's `EndFrame` (clearing the frame-active flag even on its failure),
computes the CPU frame time and merges the driver stats. -/
def pipelineEndFrame {D : Type} (endF : D → Bool × D) (statsF : D → FrameStats)
    (now : ℚ) (s : RenderPipeline D) : Bool × RenderPipeline D :=
  if !s.initialized then (false, s)
  else
    match s.driver with
    | none => (false, s)
    | some d =>
        if !s.frameActive then (false, s)
        else
          match endF d with
          | (false, d) => (false, { s with driver := some d, frameActive := false })
          | (true, d) =>
              let cpu := now - s.frameStart
              (true, { s with driver := some d,
                              cpuFrameTimeMs := cpu,
                              lastStats := { statsF d with frameTimeMs := cpu },
                              frameActive := false })

/-- `RenderPipeline::ReadbackFrame` (lines 276-288): fails (null result)
when not initialized or while a frame is active; otherwise delegates to
the surface's `ReadPixels`. -/
def pipelineReadbackFrame {D : Type} (readbackF : D → PixelReadback → Option PixelReadback)
    (s : RenderPipeline D) : Option PixelReadback × RenderPipeline D :=
  if !s.initialized then (none, s)
  else if s.frameActive then (none, s)
  else
    let p := GPUSurface.ReadPixels readbackF s.surface s.driver
    (p.1, { s with surface := p.2 })

/-! ## Theorems about the compositor conversion -/

/-- Integer division `(m + 127) / 255` is exactly round-to-nearest of
`m / 255` (ties cannot occur since `m/255` never has fractional part `1/2`). -/
theorem natDiv255_eq_round (m : Nat) :
    (((m + 127) / 255 : Nat) : Int) = round ((m : ℚ) / 255) := by
  have h : ((m : ℚ) / 255 + 1 / 2) = ((2 * m + 255 : Int) : ℚ) / ((510 : Nat) : ℚ) := by
    push_cast
    ring
  rw [round_eq, h, Rat.floor_intCast_div_natCast]
  omega

/-- C1: for every straight-alpha RGBA input pixel with alpha strictly
between 0 and 255, the compositor conversion produces, on each color
channel `c`, the output byte `(c * a + 127) / 255` (integer division),
which equals round-to-nearest of `c * a / 255`; the stated sample pairs
`c, a ∈ {1,17,128,254} × {1,17,128,254}` are instances of this. -/
theorem premul_numeric_contract (p : RGBA) (h0 : 0 < p.a) (h255 : p.a < 255) :
    ConvertRGBAToBGRAPremulPixel p =
      { b := (p.b * p.a + 127) / 255
        g := (p.g * p.a + 127) / 255
        r := (p.r * p.a + 127) / 255
        a := p.a }
    ∧ (((p.b * p.a + 127) / 255 : Nat) : Int) = round ((p.b * p.a : ℚ) / 255)
    ∧ (((p.g * p.a + 127) / 255 : Nat) : Int) = round ((p.g * p.a : ℚ) / 255)
    ∧ (((p.r * p.a + 127) / 255 : Nat) : Int) = round ((p.r * p.a : ℚ) / 255) := by
  have hb := natDiv255_eq_round (p.b * p.a)
  have hg := natDiv255_eq_round (p.g * p.a)
  have hr := natDiv255_eq_round (p.r * p.a)
  rw [Nat.cast_mul] at hb hg hr
  refine ⟨?_, hb, hg, hr⟩
  unfold ConvertRGBAToBGRAPremulPixel
  rw [if_neg (by omega), if_neg (by omega)]

/-- Witness for C1 at the sample pair `c = 17, a = 128` (channels 254/128/17). -/
theorem premul_numeric_contract_witness :
    ConvertRGBAToBGRAPremulPixel ⟨254, 128, 17, 128⟩ =
      { b := (17 * 128 + 127) / 255
        g := (128 * 128 + 127) / 255
        r := (254 * 128 + 127) / 255
        a := 128 }
    ∧ (((17 * 128 + 127) / 255 : Nat) : Int) = round ((17 * 128 : ℚ) / 255)
    ∧ (((128 * 128 + 127) / 255 : Nat) : Int) = round ((128 * 128 : ℚ) / 255)
    ∧ (((254 * 128 + 127) / 255 : Nat) : Int) = round ((254 * 128 : ℚ) / 255) :=
  premul_numeric_contract ⟨254, 128, 17, 128⟩ (by decide) (by decide)

/-- C7: the compositor conversion maps alpha = 255 pixels to the
channel-swizzled input color with alpha 255 unchanged, and alpha = 0
pixels to the all-zero output pixel regardless of the color channels. -/
theorem alpha_saturated_and_zero_roundtrip :
    (∀ r g b : Nat,
       ConvertRGBAToBGRAPremulPixel ⟨r, g, b, 255⟩ = { b := b, g := g, r := r, a := 255 })
    ∧ (∀ r g b : Nat,
       ConvertRGBAToBGRAPremulPixel ⟨r, g, b, 0⟩ = { b := 0, g := 0, r := 0, a := 0 }) := by
  constructor
  · intro r g b
    rfl
  · intro r g b
    rfl

/-! ## Facts about buffer allocation and filling -/

theorem listResize_length (l : List Nat) (n : Nat) : (listResize l n).length = n := by
  simp [listResize]
  omega

theorem flatten_replicate_length {α : Type} (k : Nat) (l : List α) :
    ((List.replicate k l).flatten).length = k * l.length := by
  induction k with
  | zero => simp
  | succ m ih =>
      simp [List.replicate_succ, ih]
      ring

theorem isValid_allocate (p : PixelReadback) (w h : Int) (hw : 0 < w) (hh : 0 < h) :
    (p.Allocate w h).IsValid = true := by
  have h1 : 0 < w.toNat := by omega
  have h2 : 0 < h.toNat := by omega
  have hl : (listResize p.data (w.toNat * h.toNat * 4)).length = w.toNat * h.toNat * 4 :=
    listResize_length _ _
  have hpos : 0 < w.toNat * h.toNat * 4 :=
    Nat.mul_pos (Nat.mul_pos h1 h2) (by norm_num)
  have hne : listResize p.data (w.toNat * h.toNat * 4) ≠ [] := by
    intro hcontra
    rw [hcontra] at hl
    simp at hl
    omega
  simp [PixelReadback.IsValid, PixelReadback.Allocate, hl, hne, hw, hh]

/-! ## Theorems about the software driver frame pipeline -/

/-- C6: on the software fallback, `CreateTarget` with positive dimensions
followed by `Clear` followed by `ReadbackPixels` succeeds and yields a
buffer of exactly `width*height*4` bytes in which every pixel is the
clamped, round-to-nearest, ×255 quantization of the clear color (in
particular clearing with 0,0,0,0 yields an all-zero buffer since
`quantizeChannel 0 = 0`). -/
theorem software_clear_readback (s : OpenGLDriver) (desc : RenderTargetDesc)
    (color : ClearColor) (output : PixelReadback)
    (hinit : s.initialized = true) (hw : 0 < desc.width) (hh : 0 < desc.height) :
    (OpenGLDriver.CreateTarget desc s).1 = true
    ∧ OpenGLDriver.ReadbackPixels
        (OpenGLDriver.Clear color (OpenGLDriver.CreateTarget desc s).2) output
      = some { data := (List.replicate (desc.width.toNat * desc.height.toNat)
                 [quantizeChannel color.r, quantizeChannel color.g,
                  quantizeChannel color.b, quantizeChannel color.a]).flatten,
               width := desc.width, height := desc.height }
    ∧ ((List.replicate (desc.width.toNat * desc.height.toNat)
         [quantizeChannel color.r, quantizeChannel color.g,
          quantizeChannel color.b, quantizeChannel color.a]).flatten).length
        = desc.width.toNat * desc.height.toNat * 4
    ∧ quantizeChannel 0 = 0 := by
  have hdims : ¬(desc.width ≤ 0 ∨ desc.height ≤ 0) := by omega
  have hwn : 0 < desc.width.toNat := by omega
  have hhn : 0 < desc.height.toNat := by omega
  have hkpos : 0 < desc.width.toNat * desc.height.toNat := Nat.mul_pos hwn hhn
  set pat : List Nat := (List.replicate (desc.width.toNat * desc.height.toNat)
      [quantizeChannel color.r, quantizeChannel color.g,
       quantizeChannel color.b, quantizeChannel color.a]).flatten with hpat
  have hpatlen : pat.length = desc.width.toNat * desc.height.toNat * 4 := by
    rw [hpat, flatten_replicate_length]
    rfl
  have hct1 : (OpenGLDriver.CreateTarget desc s).1 = true := by
    simp [OpenGLDriver.CreateTarget, hinit, hdims]
  have hct2 : (OpenGLDriver.CreateTarget desc s).2 =
      { s with targetWidth := desc.width, targetHeight := desc.height,
               internalBuffer := s.internalBuffer.Allocate desc.width desc.height } := by
    simp [OpenGLDriver.CreateTarget, hinit, hdims]
  have hBdata : (s.internalBuffer.Allocate desc.width desc.height).data.length
      = desc.width.toNat * desc.height.toNat * 4 := by
    simp [PixelReadback.Allocate, listResize_length]
  have hBvalid := isValid_allocate s.internalBuffer desc.width desc.height hw hh
  have hdrop1 : (s.internalBuffer.Allocate desc.width desc.height).data.drop pat.length = [] :=
    List.drop_eq_nil_of_le (by rw [hBdata, hpatlen])
  have hclear : OpenGLDriver.Clear color (OpenGLDriver.CreateTarget desc s).2 =
      { s with targetWidth := desc.width, targetHeight := desc.height,
               clearColor := color,
               internalBuffer :=
                 { s.internalBuffer.Allocate desc.width desc.height with data := pat } } := by
    rw [hct2]
    unfold OpenGLDriver.Clear
    simp [hBvalid, hdrop1, hpat, hBdata]
  have hpatne : pat ≠ [] := by
    intro hc
    rw [hc] at hpatlen
    simp at hpatlen
    omega
  have hvalid2 : ({ s.internalBuffer.Allocate desc.width desc.height with data := pat }
      : PixelReadback).IsValid = true := by
    simp [PixelReadback.IsValid, PixelReadback.Allocate, hpatlen, hpatne, hw, hh]
  have hdrop2 : (output.Allocate desc.width desc.height).data.drop pat.length = [] :=
    List.drop_eq_nil_of_le (by
      rw [hpatlen]
      simp [PixelReadback.Allocate, listResize_length])
  refine ⟨hct1, ?_, hpatlen, by norm_num [quantizeChannel]⟩
  rw [hclear]
  unfold OpenGLDriver.ReadbackPixels
  simp only [hvalid2, Bool.not_true, Bool.false_eq_true, if_false]
  simp [PixelReadback.Allocate, hdrop2, listResize]
  omega

/-- Witness for C6: a freshly initialized software driver, a 2x1 target
and the clear color (1, 0, 1/2, 0). -/
theorem software_clear_readback_witness :
    (OpenGLDriver.CreateTarget { width := 2, height := 1 } { initialized := true }).1 = true
    ∧ OpenGLDriver.ReadbackPixels
        (OpenGLDriver.Clear { r := 1, g := 0, b := 1/2, a := 0 }
          (OpenGLDriver.CreateTarget { width := 2, height := 1 } { initialized := true }).2) {}
      = some { data := (List.replicate ((2 : Int).toNat * (1 : Int).toNat)
                 [quantizeChannel 1, quantizeChannel 0,
                  quantizeChannel (1/2), quantizeChannel 0]).flatten,
               width := 2, height := 1 }
    ∧ ((List.replicate ((2 : Int).toNat * (1 : Int).toNat)
         [quantizeChannel 1, quantizeChannel 0,
          quantizeChannel (1/2), quantizeChannel 0]).flatten).length
        = (2 : Int).toNat * (1 : Int).toNat * 4
    ∧ quantizeChannel 0 = 0 :=
  software_clear_readback { initialized := true } { width := 2, height := 1 }
    { r := 1, g := 0, b := 1/2, a := 0 } {} rfl (by decide) (by decide)

/-! ## Theorems about hit testing -/

/-- C3: for every in-bounds coordinate of a set buffer, the hit tester
reports pass-through exactly when the pixel's alpha byte is at most the
threshold; at alpha = threshold the pixel passes through, at
alpha = threshold + 1 it captures.  The constructor default threshold is 10. -/
theorem hit_test_threshold_law (c : ClickThrough) (buf : List Nat) (x y : Int)
    (hbuf : c.buffer = some buf)
    (hx0 : 0 ≤ x) (hxw : x < c.width) (hy0 : 0 ≤ y) (hyh : y < c.height) :
    (c.IsTransparentAt x y = true ↔
       buf.getD ((y * c.width + x) * 4 + 3).toNat 0 ≤ c.threshold)
    ∧ (buf.getD ((y * c.width + x) * 4 + 3).toNat 0 = c.threshold →
       c.IsTransparentAt x y = true)
    ∧ (buf.getD ((y * c.width + x) * 4 + 3).toNat 0 = c.threshold + 1 →
       c.IsTransparentAt x y = false)
    ∧ ({} : ClickThrough).threshold = 10 := by
  have hcond : ¬(x < 0 ∨ y < 0 ∨ c.width ≤ x ∨ c.height ≤ y) := by omega
  have halpha : c.GetAlphaAt x y = buf.getD ((y * c.width + x) * 4 + 3).toNat 0 := by
    simp only [ClickThrough.GetAlphaAt, hbuf]
    rw [if_neg hcond]
  refine ⟨?_, ?_, ?_, rfl⟩
  · unfold ClickThrough.IsTransparentAt
    rw [halpha]
    exact decide_eq_true_iff
  · intro h
    unfold ClickThrough.IsTransparentAt
    rw [halpha, h]
    simp
  · intro h
    unfold ClickThrough.IsTransparentAt
    rw [halpha, h]
    simp

/-- Witness for C3: a 1x1 buffer whose single pixel has alpha 10 equal
to the default threshold 10, at coordinate (0, 0). -/
theorem hit_test_threshold_law_witness :
    (ClickThrough.IsTransparentAt ⟨some [0, 0, 0, 10], 1, 1, 10⟩ 0 0 = true ↔
       [0, 0, 0, 10].getD ((0 * (1 : Int) + 0) * 4 + 3).toNat 0 ≤ 10)
    ∧ ([0, 0, 0, 10].getD ((0 * (1 : Int) + 0) * 4 + 3).toNat 0 = 10 →
       ClickThrough.IsTransparentAt ⟨some [0, 0, 0, 10], 1, 1, 10⟩ 0 0 = true)
    ∧ ([0, 0, 0, 10].getD ((0 * (1 : Int) + 0) * 4 + 3).toNat 0 = 10 + 1 →
       ClickThrough.IsTransparentAt ⟨some [0, 0, 0, 10], 1, 1, 10⟩ 0 0 = false)
    ∧ ({} : ClickThrough).threshold = 10 :=
  hit_test_threshold_law ⟨some [0, 0, 0, 10], 1, 1, 10⟩ [0, 0, 0, 10] 0 0 rfl
    (by decide) (by decide) (by decide) (by decide)

/-- C10: out of bounds of the current buffer, or while no buffer is set,
`GetAlphaAt` returns 0, so the hit test reports pass-through for every
threshold value. -/
theorem out_of_bounds_pass_through (c : ClickThrough) (x y : Int)
    (h : c.buffer = none ∨ x < 0 ∨ y < 0 ∨ c.width ≤ x ∨ c.height ≤ y) :
    c.GetAlphaAt x y = 0 ∧ c.IsTransparentAt x y = true := by
  have h0 : c.GetAlphaAt x y = 0 := by
    rcases hb : c.buffer with _ | buf
    · simp [ClickThrough.GetAlphaAt, hb]
    · have hcond : x < 0 ∨ y < 0 ∨ c.width ≤ x ∨ c.height ≤ y := by
        rcases h with h | h
        · rw [hb] at h
          cases h
        · exact h
      simp only [ClickThrough.GetAlphaAt, hb]
      rw [if_pos hcond]
  refine ⟨h0, ?_⟩
  unfold ClickThrough.IsTransparentAt
  rw [h0]
  simp

/-- Witness for C10: a query at x = -1 against a hit tester with a live
1x1 buffer and threshold 0 still passes through. -/
theorem out_of_bounds_pass_through_witness :
    ClickThrough.GetAlphaAt ⟨some [0, 0, 0, 200], 1, 1, 0⟩ (-1) 0 = 0
    ∧ ClickThrough.IsTransparentAt ⟨some [0, 0, 0, 200], 1, 1, 0⟩ (-1) 0 = true :=
  out_of_bounds_pass_through ⟨some [0, 0, 0, 200], 1, 1, 0⟩ (-1) 0 (Or.inr (Or.inl (by decide)))

/-! ## EndFrame target guards (C2) -/

/-- C2 counterexample: on the software fallback, a freshly initialized
driver on which `CreateTarget` was never called (target dimensions 0) —
or whose target was destroyed again — still gets `true` from `EndFrame`,
so `EndFrame` with no bound target does not fail on every backend. -/
theorem opengl_endframe_succeeds_without_target :
    ((OpenGLDriver.InitDriver {} {}).2).targetWidth = 0
    ∧ (OpenGLDriver.EndFrame (OpenGLDriver.InitDriver {} {}).2).1 = true
    ∧ (OpenGLDriver.EndFrame
        (OpenGLDriver.DestroyTarget
          (OpenGLDriver.CreateTarget { width := 64, height := 64 }
            (OpenGLDriver.InitDriver {} {}).2).2)).1 = true :=
  ⟨rfl, rfl, rfl⟩

/-- C2 amended: on the hardware DX11 backend `EndFrame` fails (with no
state change) whenever no render-target view is bound, while on the
software OpenGL fallback `EndFrame` succeeds exactly when the driver is
initialized, bound target or not. -/
theorem endframe_no_target_guard (env : DX11TimingEnv) (d : DX11Driver) (g : OpenGLDriver)
    (hd : d.rtv = false) :
    DX11Driver.EndFrame env d = (false, d)
    ∧ (OpenGLDriver.EndFrame g).1 = g.initialized := by
  constructor
  · unfold DX11Driver.EndFrame
    rw [if_pos]
    rw [hd]
    right
    rfl
  · unfold OpenGLDriver.EndFrame
    cases hg : g.initialized <;> simp [hg]

/-- Witness for the amended C2 at the default (fresh) driver states. -/
theorem endframe_no_target_guard_witness :
    DX11Driver.EndFrame {} {} = (false, {})
    ∧ (OpenGLDriver.EndFrame {}).1 = ({} : OpenGLDriver).initialized :=
  endframe_no_target_guard {} {} {} rfl

/-! ## Resize no-op law (C8) -/

/-- C8: resizing a created surface to its current dimensions returns
success and leaves the surface — its readback buffer included — and the
driver untouched, and the software driver's `ResizeTarget` is likewise a
success no-op when the dimensions are unchanged. -/
theorem resize_noop {D : Type} (resizeT : Int → Int → D → Bool × D)
    (surf : GPUSurface) (d : Option D) (w h : Int) (g : OpenGLDriver)
    (hc : surf.created = true) (hd : surf.hasDriver = true)
    (hw : 0 < w) (hh : 0 < h) (hsw : w = surf.width) (hsh : h = surf.height)
    (hgi : g.initialized = true) (hgw : w = g.targetWidth) (hgh : h = g.targetHeight) :
    GPUSurface.Resize resizeT surf d w h = (true, surf, d)
    ∧ OpenGLDriver.ResizeTarget w h g = (true, g) := by
  constructor
  · unfold GPUSurface.Resize
    rw [hc, hd]
    rw [if_neg (by simp)]
    rw [if_neg (by omega)]
    rw [if_pos ⟨hsw, hsh⟩]
  · unfold OpenGLDriver.ResizeTarget
    rw [hgi]
    rw [if_neg (by simp)]
    rw [if_neg (by omega)]
    rw [if_pos ⟨hgw, hgh⟩]

/-- Witness for C8: a created 3x4 surface over the software driver,
resized to 3x4. -/
theorem resize_noop_witness :
    GPUSurface.Resize OpenGLDriver.ResizeTarget
        { created := true, hasDriver := true, width := 3, height := 4 }
        (some { initialized := true, targetWidth := 3, targetHeight := 4 }) 3 4
      = (true, { created := true, hasDriver := true, width := 3, height := 4 },
         some { initialized := true, targetWidth := 3, targetHeight := 4 })
    ∧ OpenGLDriver.ResizeTarget 3 4 { initialized := true, targetWidth := 3, targetHeight := 4 }
      = (true, { initialized := true, targetWidth := 3, targetHeight := 4 }) :=
  resize_noop OpenGLDriver.ResizeTarget
    { created := true, hasDriver := true, width := 3, height := 4 }
    (some { initialized := true, targetWidth := 3, targetHeight := 4 }) 3 4
    { initialized := true, targetWidth := 3, targetHeight := 4 }
    rfl rfl (by decide) (by decide) rfl rfl rfl rfl rfl

/-! ## Driver selection determinism (C4) -/

theorem driverRegistry_eq :
    driverRegistry = [{ api := .DX11, priority := 10 }, { api := .OpenGL, priority := 100 }] := by
  rfl

/-- C4: with the code's registry, a specified preferred API present in
the registry is instantiated and tried first; on success it wins and no
other entry is instantiated; on support or initialization failure the
priority-sorted registry is walked skipping the preferred entry and the
first entry passing both `IsSupported` and `Initialize` wins — `none`
(initialization failure) when no entry succeeds. -/
theorem driver_selection_deterministic (env : SelectEnv) (pref : GraphicsAPI)
    (hpref : pref ≠ GraphicsAPI.NoAPI)
    (hmem : (findPreferredEntry pref driverRegistry).isSome = true) :
    (env.supported pref = true → env.initOk pref = true →
       SelectAndInitDriver env pref driverRegistry = (some pref, [pref]))
    ∧ ((env.supported pref = false ∨ env.initOk pref = false) →
       (SelectAndInitDriver env pref driverRegistry).2.head? = some pref
       ∧ (SelectAndInitDriver env pref driverRegistry).1
           = (((driverRegistry.filter fun e => decide (e.api ≠ pref)).find?
                fun e => env.supported e.api && env.initOk e.api).map
              fun e => e.api)) := by
  rw [driverRegistry_eq] at hmem ⊢
  cases pref with
  | NoAPI => exact absurd rfl hpref
  | DX12 => simp [findPreferredEntry] at hmem
  | Vulkan => simp [findPreferredEntry] at hmem
  | DX11 =>
      constructor
      · intro hs hi
        simp [SelectAndInitDriver, findPreferredEntry, hs, hi]
      · intro hfail
        cases hs : env.supported GraphicsAPI.DX11 <;>
          cases hi : env.initOk GraphicsAPI.DX11 <;>
          cases hso : env.supported GraphicsAPI.OpenGL <;>
          cases hio : env.initOk GraphicsAPI.OpenGL <;>
          simp_all [SelectAndInitDriver, findPreferredEntry, selectFallbackLoop]
  | OpenGL =>
      constructor
      · intro hs hi
        simp [SelectAndInitDriver, findPreferredEntry, hs, hi]
      · intro hfail
        cases hs : env.supported GraphicsAPI.DX11 <;>
          cases hi : env.initOk GraphicsAPI.DX11 <;>
          cases hso : env.supported GraphicsAPI.OpenGL <;>
          cases hio : env.initOk GraphicsAPI.OpenGL <;>
          simp_all [SelectAndInitDriver, findPreferredEntry, selectFallbackLoop]

/-- Witness for C4 at the spec's concrete scenario: the preferred API is
the fallback's (OpenGL, priority 100); with everything supported, the
fallback is tried first as preferred and wins, DX11 never instantiated. -/
theorem driver_selection_deterministic_witness :
    SelectAndInitDriver { supported := fun _ => true, initOk := fun _ => true }
        GraphicsAPI.OpenGL driverRegistry
      = (some GraphicsAPI.OpenGL, [GraphicsAPI.OpenGL]) :=
  (driver_selection_deterministic
      { supported := fun _ => true, initOk := fun _ => true }
      GraphicsAPI.OpenGL (by decide) (by rfl)).1 rfl rfl

/-! ## Frame-protocol rejection (C5) -/

/-- A successful `pipelineBeginFrame` always leaves the frame-active
flag set. -/
theorem pipelineBeginFrame_sets_active {D : Type} (beginF : D → Bool × D)
    (clearF : ClearColor → D → D) (viewportF : Viewport → D → D) (now : ℚ)
    (s0 res : RenderPipeline D)
    (h : pipelineBeginFrame beginF clearF viewportF now s0 = (true, res)) :
    res.frameActive = true := by
  unfold pipelineBeginFrame at h
  split at h
  · simp at h
  · split at h
    · simp at h
    · split at h
      · simp at h
      · dsimp only at h
        split at h
        · simp at h
        · simp only [Prod.mk.injEq, true_and] at h
          rw [← h]

/-- C5: `RenderPipeline::EndFrame` with no active frame returns failure
and leaves the whole pipeline state — the driver and its frame counter
included — unchanged, and `RenderPipeline::ReadbackFrame` called after a
successful `BeginFrame` (and before `EndFrame`) returns a null result. -/
theorem frame_protocol_rejection {D : Type}
    (endF : D → Bool × D) (statsF : D → FrameStats)
    (beginF : D → Bool × D) (clearF : ClearColor → D → D) (viewportF : Viewport → D → D)
    (readbackF : D → PixelReadback → Option PixelReadback)
    (tEnd tBegin : ℚ) (s s0 : RenderPipeline D) :
    (s.frameActive = false → pipelineEndFrame endF statsF tEnd s = (false, s))
    ∧ (pipelineBeginFrame beginF clearF viewportF tBegin s0 = (true, s) →
       (pipelineReadbackFrame readbackF s).1 = none) := by
  constructor
  · intro hf
    unfold pipelineEndFrame
    cases hi : s.initialized <;> cases hdr : s.driver <;> simp [hi, hdr, hf]
  · intro hb
    have hact : s.frameActive = true :=
      pipelineBeginFrame_sets_active beginF clearF viewportF tBegin s0 s hb
    unfold pipelineReadbackFrame
    cases hsi : s.initialized <;> simp [hsi, hact]

/-- Witness for C5: a trivial one-driver pipeline; `EndFrame` on an idle
initialized pipeline fails without state change, and `ReadbackFrame`
right after a successful `BeginFrame` is null. -/
theorem frame_protocol_rejection_witness :
    pipelineEndFrame (fun d : Unit => (true, d)) (fun _ => {}) 0
        { initialized := true, driver := some () }
      = (false, { initialized := true, driver := some () })
    ∧ (pipelineReadbackFrame (fun _ _ => none)
        (pipelineBeginFrame (fun d : Unit => (true, d)) (fun _ d => d) (fun _ d => d) 0
          { initialized := true, driver := some () }).2).1 = none := by
  refine ⟨?_, ?_⟩
  · exact (frame_protocol_rejection (fun d : Unit => (true, d)) (fun _ => {})
      (fun d => (true, d)) (fun _ d => d) (fun _ d => d) (fun _ _ => none) 0 0
      { initialized := true, driver := some () }
      { initialized := true, driver := some () }).1 rfl
  · exact (frame_protocol_rejection (fun d : Unit => (true, d)) (fun _ => {})
      (fun d => (true, d)) (fun _ d => d) (fun _ d => d) (fun _ _ => none) 0 0
      (pipelineBeginFrame (fun d : Unit => (true, d)) (fun _ d => d) (fun _ d => d) 0
        { initialized := true, driver := some () }).2
      { initialized := true, driver := some () }).2 rfl

/-! ## Lifecycle idempotence (C9) -/

/-- C9: `Shutdown` twice equals `Shutdown` once on both drivers and on
the pipeline, and calling `Initialize` again while already initialized
returns success with the state completely unchanged (no re-selection, no
re-allocation) on both drivers and on the pipeline. -/
theorem lifecycle_idempotent :
    (∀ s : OpenGLDriver, s.Shutdown.Shutdown = s.Shutdown)
    ∧ (∀ s : DX11Driver, s.Shutdown.Shutdown = s.Shutdown)
    ∧ (∀ (D : Type) (isInit : D → Bool) (destroyT shutdownF : D → D) (s : RenderPipeline D),
        pipelineShutdown isInit destroyT shutdownF (pipelineShutdown isInit destroyT shutdownF s)
          = pipelineShutdown isInit destroyT shutdownF s)
    ∧ (∀ (config : RenderConfig) (s : OpenGLDriver), s.initialized = true →
        OpenGLDriver.InitDriver config s = (true, s))
    ∧ (∀ (env : DX11InitEnv) (config : RenderConfig) (s : DX11Driver), s.initialized = true →
        DX11Driver.InitDriver env config s = (true, s))
    ∧ (∀ (D : Type) (selected : Option D) (isInit : D → Bool)
        (createT : RenderTargetDesc → D → Bool × D) (destroyT shutdownF : D → D)
        (config : RenderConfig) (s : RenderPipeline D), s.initialized = true →
        pipelineInit selected isInit createT destroyT shutdownF config s = (true, s)) := by
  refine ⟨?_, ?_, ?_, ?_, ?_, ?_⟩
  · intro s
    cases hi : s.initialized <;> simp [OpenGLDriver.Shutdown, hi]
  · intro s
    cases hi : s.initialized <;> simp [DX11Driver.Shutdown, DX11Driver.DestroyTarget, hi]
  · intro D isInit destroyT shutdownF s
    cases hi : s.initialized <;> simp [pipelineShutdown, hi]
  · intro config s hi
    simp [OpenGLDriver.InitDriver, hi]
  · intro env config s hi
    simp [DX11Driver.InitDriver, hi]
  · intro D selected isInit createT destroyT shutdownF config s hi
    simp [pipelineInit, hi]

/-- Witness for C9's initialize-while-initialized conjuncts at concrete
initialized states (the shutdown conjuncts are hypothesis-free). -/
theorem lifecycle_idempotent_witness :
    OpenGLDriver.InitDriver {} { initialized := true } = (true, { initialized := true })
    ∧ DX11Driver.InitDriver {} {} { initialized := true } = (true, { initialized := true })
    ∧ pipelineInit (some ()) (fun _ : Unit => true) (fun _ d => (true, d)) id id {}
        { initialized := true } = (true, { initialized := true }) :=
  ⟨lifecycle_idempotent.2.2.2.1 {} { initialized := true } rfl,
   lifecycle_idempotent.2.2.2.2.1 {} {} { initialized := true } rfl,
   lifecycle_idempotent.2.2.2.2.2 Unit (some ()) (fun _ => true) (fun _ d => (true, d)) id id {}
     { initialized := true } rfl⟩

end DMME
